import Mathlib

/-!
Verification development for the agentic honeypot backend
(`backend/detector.py`, `backend/extractor.py`, `backend/session_store.py`,
`backend/agent.py`, `backend/main.py`).

Modelling conventions:
* Python floats are modelled as rationals (`ℚ`); all arithmetic in the
  backend is sums, `min`/`max` and threshold comparisons of small decimal
  literals, none of which the claims probe at float-rounding granularity.
* The Python `re` library is an external collaborator.  Its two entry
  points used by the backend are passed as explicit function parameters:
  `research : String → String → Bool` for `re.search(pattern, subject)`
  (`true` iff the pattern matches somewhere in the subject) and
  `refindall : String → String → Bool → List String` for
  `re.findall(pattern, subject, ignorecase)` (the list of non-overlapping
  matches; the Bool records whether `re.IGNORECASE` was passed).
  Universally quantified theorems hold for every oracle, hence for the real
  regex engine; concrete evaluations instantiate the oracle with the
  hand-checked answers of Python `re` on that one input.
* Python `str.lower` is modelled by mapping `Char.toLower` over the
  characters; every string the development evaluates concretely is ASCII,
  where the two agree.
* `random.choice` in the response selector is passed as an explicit
  parameter `choice : List String → String`.
* Mutable dict/list state becomes explicit state passing on a `Session`
  record.  One Python aliasing fact is modelled explicitly where it is
  observable: `honeypot_message` assigns the *same* list object to
  `session["messages"]` and `session["conversationHistory"]`, so every
  later append through either key lands in that one shared list.
-/

namespace Honeypot

/-- Prefix test on character lists (used to build the substring test). -/
def isPrefixList : List Char → List Char → Bool
  | [], _ => true
  | _ :: _, [] => false
  | a :: as, b :: bs => a == b && isPrefixList as bs

/-- Infix (contiguous-substring) test on character lists. -/
def isInfixList (needle : List Char) : List Char → Bool
  | [] => needle.isEmpty
  | c :: rest => isPrefixList needle (c :: rest) || isInfixList needle rest

/-- Python `needle in haystack` on strings: contiguous-substring containment. -/
def strContains (haystack needle : String) : Bool :=
  isInfixList needle.data haystack.data

/-- Python `text.lower()` (ASCII-faithful). -/
def lowerStr (s : String) : String :=
  String.mk (s.data.map Char.toLower)

/-- A chat message: `{sender, text, timestamp}` (timestamp in milliseconds). -/
structure Message where
  sender : String
  text : String
  timestamp : ℚ
deriving DecidableEq

/-- The per-session intelligence dict created in `get_session`
(`session_store.py` lines 27-33): five named collections of strings. -/
structure Intelligence where
  bankAccounts : List String
  upiIds : List String
  phishingLinks : List String
  phoneNumbers : List String
  suspiciousKeywords : List String
deriving DecidableEq

/-- The session dict of `session_store.py` (lines 21-45). -/
structure Session where
  sessionId : String
  scamDetected : Bool
  scamConfidence : ℚ
  messages : List Message
  conversationHistory : List Message
  intelligence : Intelligence
  agentPersona : Option String
  conversationStage : Nat
  startTime : ℚ
  lastActivity : ℚ
  completed : Bool
  totalMessagesExchanged : Nat
  scammerMessagesCount : Nat
  agentMessagesCount : Nat
  engagementScore : ℚ
  extractedPatterns : List String
  riskLevel : String
deriving DecidableEq

/-- The fresh session record `get_session` installs on first use of a
session id (`session_store.py` lines 21-45).  Note `riskLevel` starts at
`"low"`, not `"very_low"`. -/
def newSession (session_id : String) (current_time : ℚ) : Session :=
  { sessionId := session_id
    scamDetected := false
    scamConfidence := 0
    messages := []
    conversationHistory := []
    intelligence :=
      { bankAccounts := []
        upiIds := []
        phishingLinks := []
        phoneNumbers := []
        suspiciousKeywords := [] }
    agentPersona := none
    conversationStage := 0
    startTime := current_time
    lastActivity := current_time
    completed := false
    totalMessagesExchanged := 0
    scammerMessagesCount := 0
    agentMessagesCount := 0
    engagementScore := 0
    extractedPatterns := []
    riskLevel := "low" }

/-! ## Signal Scorer (`detector.py`) -/

/-- Source `SCAM_KEYWORDS` of `detector.py` (lines 5-13). -/
def SCAM_KEYWORDS : List String :=
  ["blocked", "verify", "urgent", "upi", "account",
   "suspended", "kyc", "click", "bank", "immediately",
   "limited time", "offer expires", "prize", "winner",
   "lottery", "congratulations", "payment required",
   "act now", "don\x27t miss", "exclusive", "bonus",
   "reward", "claim", "expire", "suspend", "freeze",
   "debit card", "credit card", "cvv", "otp", "pin"]

/-- Source `URGENCY_PATTERNS` of `detector.py` (lines 15-18). -/
def URGENCY_PATTERNS : List String :=
  ["\\burgent\\b", "\\bimmediately\\b", "\\bright now\\b",
   "\\blast chance\\b", "\\blimited time\\b", "\\btoday only\\b"]

/-- Source `FINANCIAL_PATTERNS` of `detector.py` (lines 20-23). -/
def FINANCIAL_PATTERNS : List String :=
  ["\\baccount.*block\\b", "\\baccount.*suspend\\b", "\\bverify.*account\\b",
   "\\bpayment.*required\\b", "\\bdeposit.*money\\b", "\\btransfer.*fund\\b"]

/-- Source `PHISHING_PATTERNS` of `detector.py` (lines 25-28). -/
def PHISHING_PATTERNS : List String :=
  ["\\bclick.*link\\b", "\\bdownload.*app\\b", "\\binstall.*software\\b",
   "\\bupdate.*details\\b", "\\bconfirm.*information\\b"]

/-- The URL pattern of `detector.py` line 63. -/
def urlSearchPattern : String := "https?://[^\\s]+"

/-- The phone pattern of `detector.py` line 68 (`\+?\d{10,}`). -/
def phoneSearchPattern : String := "\\+?\\d\x7b10,\x7d"

/-- Source `calculate_scam_score` of `detector.py` (lines 30-76), parameterized by
the `re.search` oracle.  Returns `(is_scam, detected_keywords,
confidence_score)`. -/
def calculate_scam_score (research : String → String → Bool) (text : String) :
    Bool × List String × ℚ :=
  let text_lower := lowerStr text
  let keyword_hits := SCAM_KEYWORDS.filter (fun k => strContains text_lower k)
  let urgency_hits := URGENCY_PATTERNS.filter (fun p => research p text_lower)
  let financial_hits := FINANCIAL_PATTERNS.filter (fun p => research p text_lower)
  let phishing_hits := PHISHING_PATTERNS.filter (fun p => research p text_lower)
  let url_hit := research urlSearchPattern text
  let phone_hit := research phoneSearchPattern text
  let score : ℚ :=
    (keyword_hits.length : ℚ) * 0.15
      + (urgency_hits.length : ℚ) * 0.25
      + (financial_hits.length : ℚ) * 0.30
      + (phishing_hits.length : ℚ) * 0.20
      + (if url_hit then 0.15 else 0)
      + (if phone_hit then 0.10 else 0)
  let detected_keywords :=
    keyword_hits
      ++ urgency_hits.map (fun _ => "urgency_tactic")
      ++ financial_hits.map (fun _ => "financial_threat")
      ++ phishing_hits.map (fun _ => "phishing_attempt")
      ++ (if url_hit then ["suspicious_link"] else [])
      ++ (if phone_hit then ["phone_number"] else [])
  let confidence_score := min score 1
  let is_scam := decide (confidence_score ≥ 0.4)
  (is_scam, detected_keywords, confidence_score)

/-- C1.  For every regex oracle and every input text, the returned
confidence lies in `[0,1]` and the fraud classification holds exactly when
the confidence is at least `0.4`. -/
theorem score_confidence_range_and_threshold
    (research : String → String → Bool) (text : String) :
    0 ≤ (calculate_scam_score research text).2.2
      ∧ (calculate_scam_score research text).2.2 ≤ 1
      ∧ ((calculate_scam_score research text).1 = true
          ↔ (calculate_scam_score research text).2.2 ≥ 0.4) := by
  have hscore : (0 : ℚ) ≤
      ((SCAM_KEYWORDS.filter
          (fun k => strContains (lowerStr text) k)).length : ℚ) * 0.15
        + ((URGENCY_PATTERNS.filter
            (fun p => research p (lowerStr text))).length : ℚ) * 0.25
        + ((FINANCIAL_PATTERNS.filter
            (fun p => research p (lowerStr text))).length : ℚ) * 0.30
        + ((PHISHING_PATTERNS.filter
            (fun p => research p (lowerStr text))).length : ℚ) * 0.20
        + (if research urlSearchPattern text then (0.15 : ℚ) else 0)
        + (if research phoneSearchPattern text then (0.10 : ℚ) else 0) := by
    have h1 : (0 : ℚ) ≤ (if research urlSearchPattern text then (0.15 : ℚ) else 0) := by
      split <;> norm_num
    have h2 : (0 : ℚ) ≤ (if research phoneSearchPattern text then (0.10 : ℚ) else 0) := by
      split <;> norm_num
    have h3 : ∀ n : Nat, (0 : ℚ) ≤ (n : ℚ) := fun n => Nat.cast_nonneg n
    have := h3 (SCAM_KEYWORDS.filter (fun k => strContains (lowerStr text) k)).length
    positivity
  refine ⟨?_, ?_, ?_⟩
  · simp only [calculate_scam_score]
    exact le_min hscore (by norm_num)
  · simp only [calculate_scam_score]
    exact min_le_right _ _
  · simp only [calculate_scam_score]
    exact decide_eq_true_iff

/-! ## Intelligence Extractor (`extractor.py`) -/

/-- Source `UPI_PATTERNS` of `extractor.py` (lines 5-9). -/
def UPI_PATTERNS : List String :=
  ["[a-zA-Z0-9.\\-_]\x7b2,\x7d@[a-zA-Z]\x7b2,\x7d",
   "[a-zA-Z0-9.\\-_]+@[\\w.-]+",
   "\\b[\\w.-]+@[\\w.-]+\\.[a-zA-Z]\x7b2,\x7d\\b"]

/-- Source `PHONE_PATTERNS` of `extractor.py` (lines 11-16). -/
def PHONE_PATTERNS : List String :=
  ["\\+91[6-9]\\d\x7b9\x7d",
   "\\+?\\d\x7b10,15\x7d",
   "\\b\\d\x7b10\x7d\\b",
   "\\+91[-\\s]?\\d\x7b5\x7d[-\\s]?\\d\x7b5\x7d"]

/-- Source `URL_PATTERNS` of `extractor.py` (lines 18-22). -/
def URL_PATTERNS : List String :=
  ["https?://[^\\s]+",
   "www\\.[^\\s]+",
   "[a-zA-Z0-9.-]+\\.[a-zA-Z]\x7b2,\x7d[^\\s]*"]

/-- Source `BANK_ACCOUNT_PATTERNS` of `extractor.py` (lines 24-29). -/
def BANK_ACCOUNT_PATTERNS : List String :=
  ["\\b\\d\x7b10,18\x7d\\b",
   "\\b[A-Z]\x7b4\x7d\\d\x7b7,15\x7d\\b",
   "account\\s*#?\\s*[:\\-]?\\s*\\d+",
   "a/c\\s*[:\\-]?\\s*\\d+"]

/-- Source `CARD_PATTERNS` of `extractor.py` (lines 31-35). -/
def CARD_PATTERNS : List String :=
  ["\\b\\d\x7b4\x7d[-\\s]?\\d\x7b4\x7d[-\\s]?\\d\x7b4\x7d[-\\s]?\\d\x7b4\x7d\\b",
   "\\b\\d\x7b13,19\x7d\\b",
   "card\\s*#?\\s*[:\\-]?\\s*\\d+"]

/-- The `re.findall` oracle type: pattern, subject, and whether
`re.IGNORECASE` was passed. -/
def Findall : Type := String → String → Bool → List String

/-- Pool the matches of every alternative pattern of one family, in
pattern order, then deduplicate (`list(set(...))` in the source; modelled
as an order-preserving dedup, which has the same members). -/
def poolMatches (refindall : Findall) (patterns : List String)
    (text : String) (ignorecase : Bool) : List String :=
  ((patterns.map (fun p => refindall p text ignorecase)).flatten).dedup

/-- Source `extract_upi_ids` (`extractor.py` lines 37-43, `re.IGNORECASE`). -/
def extract_upi_ids (refindall : Findall) (text : String) : List String :=
  poolMatches refindall UPI_PATTERNS text true

/-- Source `extract_phone_numbers` (`extractor.py` lines 45-51, no flag). -/
def extract_phone_numbers (refindall : Findall) (text : String) : List String :=
  poolMatches refindall PHONE_PATTERNS text false

/-- Source `extract_urls` (`extractor.py` lines 53-59, `re.IGNORECASE`). -/
def extract_urls (refindall : Findall) (text : String) : List String :=
  poolMatches refindall URL_PATTERNS text true

/-- Source `extract_bank_accounts` (`extractor.py` lines 61-67, `re.IGNORECASE`). -/
def extract_bank_accounts (refindall : Findall) (text : String) : List String :=
  poolMatches refindall BANK_ACCOUNT_PATTERNS text false

/-- Source `extract_card_numbers` (`extractor.py` lines 69-75, no flag). -/
def extract_card_numbers (refindall : Findall) (text : String) : List String :=
  poolMatches refindall CARD_PATTERNS text false

/-- The fixed vocabulary of `extract_suspicious_keywords`
(`extractor.py` lines 79-85). -/
def suspicious_words : List String :=
  ["urgent", "immediate", "verify", "confirm", "suspended",
   "blocked", "freeze", "expire", "limited", "exclusive",
   "prize", "winner", "lottery", "bonus", "reward",
   "click", "download", "install", "update", "payment",
   "required", "deposit", "transfer", "otp", "cvv", "pin"]

/-- Source `extract_suspicious_keywords` (`extractor.py` lines 77-94). -/
def extract_suspicious_keywords (text : String) : List String :=
  (suspicious_words.filter (fun w => strContains (lowerStr text) w)).dedup

/-- The update idiom of `extract_intelligence` lines 109-113:
`existing.extend([x for x in new if x not in existing])`.  Appends the
candidates not already present (it does not deduplicate `new` against
itself, faithfully to the source). -/
def extendUnique (existing new : List String) : List String :=
  existing ++ new.filter (fun x => decide (x ∉ existing))

/-- Source `extract_intelligence` of `extractor.py` (lines 96-115).  Note the
source computes `card_numbers` (line 105) and then never merges it into
any collection: the merged result is independent of `extract_card_numbers`. -/
def extract_intelligence (refindall : Findall) (text : String)
    (existing_intel : Intelligence) : Intelligence :=
  let upi_ids := extract_upi_ids refindall text
  let phone_numbers := extract_phone_numbers refindall text
  let urls := extract_urls refindall text
  let bank_accounts := extract_bank_accounts refindall text
  let card_numbers := extract_card_numbers refindall text
  let suspicious_keywords := extract_suspicious_keywords text
  let _unused_as_in_source := card_numbers
  { existing_intel with
    upiIds := extendUnique existing_intel.upiIds upi_ids
    phoneNumbers := extendUnique existing_intel.phoneNumbers phone_numbers
    phishingLinks := extendUnique existing_intel.phishingLinks urls
    bankAccounts := extendUnique existing_intel.bankAccounts bank_accounts
    suspiciousKeywords :=
      extendUnique existing_intel.suspiciousKeywords suspicious_keywords }

/-- Every candidate ends up (or already was) in the merged collection. -/
theorem mem_extendUnique {x : String} (existing new : List String)
    (hx : x ∈ new) : x ∈ extendUnique existing new := by
  unfold extendUnique
  by_cases hmem : x ∈ existing
  · exact List.mem_append_left _ hmem
  · exact List.mem_append_right _ (List.mem_filter.mpr ⟨hx, by simpa using hmem⟩)

/-- Re-merging the same candidates adds nothing. -/
theorem extendUnique_idem (existing new : List String) :
    extendUnique (extendUnique existing new) new = extendUnique existing new := by
  unfold extendUnique
  have hnil : new.filter
      (fun x => decide (x ∉ existing ++ new.filter (fun y => decide (y ∉ existing)))) = [] := by
    rw [List.filter_eq_nil_iff]
    intro a ha
    simp only [decide_eq_true_eq, Decidable.not_not, not_not]
    exact mem_extendUnique existing new ha
  calc existing ++ new.filter (fun y => decide (y ∉ existing))
        ++ new.filter (fun x =>
            decide (x ∉ existing ++ new.filter (fun y => decide (y ∉ existing))))
      = existing ++ new.filter (fun y => decide (y ∉ existing)) ++ [] := by rw [hnil]
    _ = existing ++ new.filter (fun y => decide (y ∉ existing)) := by
        rw [List.append_nil]

/-- C3.  Merge is idempotent: for every findall oracle, every existing
artifact set `S` and every text `t`, applying extraction-and-merge twice
with the same `t` yields exactly the same artifact set (every field equal)
as applying it once. -/
theorem extract_merge_idempotent (refindall : Findall) (text : String)
    (S : Intelligence) :
    extract_intelligence refindall text (extract_intelligence refindall text S)
      = extract_intelligence refindall text S := by
  unfold extract_intelligence
  simp only [extendUnique_idem]

/-- The empty artifact set a fresh session starts with. -/
def emptyIntelligence : Intelligence :=
  { bankAccounts := []
    upiIds := []
    phishingLinks := []
    phoneNumbers := []
    suspiciousKeywords := [] }

/-- A dash-grouped card number, matched only by the first card pattern. -/
def cardText : String := "4111-1111-1111-1111"

/-- Python `re.findall`, recorded by hand for every pattern of
`extractor.py` against the subject `"4111-1111-1111-1111"`: the first card
pattern (`\b\d{4}[-\s]?\d{4}[-\s]?\d{4}[-\s]?\d{4}\b`) matches the whole
subject; no UPI pattern matches (no `@`), no phone or bank-account or
second-card pattern matches (every bare digit run has length 4, below the
10/13-digit minima), no URL pattern matches (no dot or scheme), and the
worded `account`/`a/c`/`card` patterns find no letters to anchor on. -/
def refindallCard (p text : String) (ignorecase : Bool) : List String :=
  let _ := ignorecase
  if p = "\\b\\d\x7b4\x7d[-\\s]?\\d\x7b4\x7d[-\\s]?\\d\x7b4\x7d[-\\s]?\\d\x7b4\x7d\\b"
      ∧ text = cardText then
    [cardText]
  else []

/-- C9 (code bug).  On the failing input `"4111-1111-1111-1111"`, the
card-number extractor does find the dash-grouped card, yet
`extract_intelligence` returns the existing artifact set unchanged — the
match lands in no collection (`extract_intelligence` computes
`card_numbers` and never merges it), contradicting the spec, which says all
pooled card-pattern matches are merged. -/
theorem card_number_match_never_merged :
    extract_card_numbers refindallCard cardText = [cardText]
      ∧ extract_intelligence refindallCard cardText emptyIntelligence
          = emptyIntelligence
      ∧ cardText
          ∉ (extract_intelligence refindallCard cardText
              emptyIntelligence).bankAccounts := by
  refine ⟨rfl, rfl, ?_⟩
  intro hmem
  rw [show extract_intelligence refindallCard cardText emptyIntelligence
      = emptyIntelligence from rfl] at hmem
  cases hmem

/-! ## Session Store (`session_store.py`) -/

/-- Source `_calculate_risk_level` (`session_store.py` lines 86-95). -/
def calculate_risk_level (confidence : ℚ) : String :=
  if confidence ≥ 0.8 then "high"
  else if confidence ≥ 0.6 then "medium"
  else if confidence ≥ 0.4 then "low"
  else "very_low"

/-- Source `len([k for k in session["intelligence"].values() if k])`: the number of
non-empty artifact collections. -/
def nonemptyCollections (i : Intelligence) : Nat :=
  ([i.bankAccounts, i.upiIds, i.phishingLinks, i.phoneNumbers,
    i.suspiciousKeywords].filter (fun l => !l.isEmpty)).length

/-- Source `_calculate_engagement_score` (`session_store.py` lines 97-103). -/
def calculate_engagement_score (s : Session) : ℚ :=
  let base_score := min ((s.totalMessagesExchanged : ℚ) * 0.1) 1
  let scammer_share := (s.scammerMessagesCount : ℚ)
      / max (s.totalMessagesExchanged : ℚ) 1
  let intelligence_score := min ((nonemptyCollections s.intelligence : ℚ) * 0.2) 1
  (base_score + scammer_share + intelligence_score) / 3

/-- Source `update_session` of `session_store.py` (lines 52-84), called directly at
the store level: `session["messages"]` and `session["conversationHistory"]`
are the distinct lists created by `get_session`, so the two appends land in
different lists.  (`honeypot_message` aliases them first; its model below
inlines the aliased variant.)  `now` is the `time.time()` the inner
`get_session` call reads. -/
def update_session (now : ℚ) (message : Message) (scam_detected : Bool)
    (confidence : ℚ) (s0 : Session) : Session :=
  let s := { s0 with lastActivity := now }
  let s := { s with
    messages := s.messages ++ [message]
    conversationHistory := s.conversationHistory ++ [message] }
  let s := { s with totalMessagesExchanged := s.messages.length }
  let s :=
    if message.sender = "scammer" then
      { s with scammerMessagesCount := s.scammerMessagesCount + 1 }
    else if message.sender = "user" then
      { s with agentMessagesCount := s.agentMessagesCount + 1 }
    else s
  let s :=
    if scam_detected then
      { s with
        scamDetected := true
        scamConfidence := max s.scamConfidence confidence
        riskLevel := calculate_risk_level confidence }
    else s
  let s := { s with conversationStage := min (s.totalMessagesExchanged / 2) 5 }
  { s with engagementScore := calculate_engagement_score s }

/-- Source `mark_completed` (`session_store.py` lines 158-161) on a live session:
sets the flag, never clears it. -/
def mark_completed (s : Session) : Session :=
  { s with completed := true }

/-- One recorded turn as passed to `update_session`. -/
structure TurnRec where
  message : Message
  fraudDetected : Bool
  confidence : ℚ
deriving DecidableEq

/-- A sequence of `update_session` calls. -/
def recordTurns (now : ℚ) (s : Session) : List TurnRec → Session
  | [] => s
  | t :: ts =>
      recordTurns now (update_session now t.message t.fraudDetected t.confidence s) ts

/-- How one `update_session` call moves `scamConfidence`. -/
theorem update_session_scamConfidence (now : ℚ) (message : Message)
    (scam_detected : Bool) (confidence : ℚ) (s : Session) :
    (update_session now message scam_detected confidence s).scamConfidence
      = if scam_detected then max s.scamConfidence confidence
        else s.scamConfidence := by
  simp only [update_session, apply_ite Session.scamConfidence, ite_self]

/-- How one `update_session` call moves `riskLevel`. -/
theorem update_session_riskLevel (now : ℚ) (message : Message)
    (scam_detected : Bool) (confidence : ℚ) (s : Session) :
    (update_session now message scam_detected confidence s).riskLevel
      = if scam_detected then calculate_risk_level confidence
        else s.riskLevel := by
  simp only [update_session, apply_ite Session.riskLevel, ite_self]

/-- Source `scamConfidence` after a run of `update_session` calls, as a fold. -/
theorem recordTurns_scamConfidence (now : ℚ) (ts : List TurnRec) (s : Session) :
    (recordTurns now s ts).scamConfidence
      = ts.foldl
          (fun a t => if t.fraudDetected then max a t.confidence else a)
          s.scamConfidence := by
  induction ts generalizing s with
  | nil => rfl
  | cons t ts ih =>
      simp only [recordTurns, List.foldl_cons, ih, update_session_scamConfidence]

/-- The confidence fold never goes below its start. -/
theorem confFold_le_self (ts : List TurnRec) (a : ℚ) :
    a ≤ ts.foldl (fun a t => if t.fraudDetected then max a t.confidence else a) a := by
  induction ts generalizing a with
  | nil => simp
  | cons t ts ih =>
      simp only [List.foldl_cons]
      refine le_trans ?_ (ih _)
      split
      · exact le_max_left _ _
      · exact le_rfl

/-- The confidence fold is monotone in its start. -/
theorem confFold_mono (ts : List TurnRec) {a b : ℚ} (h : a ≤ b) :
    ts.foldl (fun a t => if t.fraudDetected then max a t.confidence else a) a
      ≤ ts.foldl (fun a t => if t.fraudDetected then max a t.confidence else a) b := by
  induction ts generalizing a b with
  | nil => simpa
  | cons t ts ih =>
      simp only [List.foldl_cons]
      refine ih ?_
      split
      · exact max_le_max_right _ h
      · exact h

/-- Every fraud-flagged confidence is bounded by the fold result. -/
theorem confFold_ge_mem (ts : List TurnRec) {t : TurnRec}
    (hf : t.fraudDetected = true) :
    ∀ a : ℚ, t ∈ ts →
      t.confidence
        ≤ ts.foldl (fun a t => if t.fraudDetected then max a t.confidence else a) a := by
  induction ts with
  | nil => intro a ht; cases ht
  | cons u us ih =>
      intro a ht
      rcases List.mem_cons.mp ht with h | h
      · subst h
        simp only [List.foldl_cons]
        rw [if_pos hf]
        exact le_trans (le_max_right _ _) (confFold_le_self us _)
      · simp only [List.foldl_cons]
        exact ih _ h

/-- The fold result is its start or one of the fraud-flagged confidences. -/
theorem confFold_attained (ts : List TurnRec) (a : ℚ) :
    ts.foldl (fun a t => if t.fraudDetected then max a t.confidence else a) a = a
      ∨ ∃ t ∈ ts, t.fraudDetected = true
          ∧ ts.foldl (fun a t => if t.fraudDetected then max a t.confidence else a) a
              = t.confidence := by
  induction ts generalizing a with
  | nil => exact Or.inl rfl
  | cons u us ih =>
      simp only [List.foldl_cons]
      by_cases hu : u.fraudDetected = true
      · rw [if_pos hu]
        rcases ih (max a u.confidence) with h | ⟨t, htmem, htf, hteq⟩
        · rw [h]
          rcases max_choice a u.confidence with hm | hm
          · exact Or.inl hm
          · exact Or.inr ⟨u, List.mem_cons_self _ _, hu, hm⟩
        · exact Or.inr ⟨t, List.mem_cons_of_mem _ htmem, htf, hteq⟩
      · rw [if_neg hu]
        rcases ih a with h | ⟨t, htmem, htf, hteq⟩
        · exact Or.inl h
        · exact Or.inr ⟨t, List.mem_cons_of_mem _ htmem, htf, hteq⟩

/-- If no turn is fraud-flagged the fold is the identity. -/
theorem confFold_id (ts : List TurnRec) (a : ℚ)
    (h : ∀ t ∈ ts, t.fraudDetected = false) :
    ts.foldl (fun a t => if t.fraudDetected then max a t.confidence else a) a = a := by
  induction ts generalizing a with
  | nil => rfl
  | cons u us ih =>
      simp only [List.foldl_cons]
      rw [if_neg (by simp [h u (List.mem_cons_self _ _)])]
      exact ih _ (fun t ht => h t (List.mem_cons_of_mem _ ht))

/-- C4.  Starting from a fresh session, after any sequence of
`update_session` calls whose confidences lie in `[0,1]` (the Signal
Scorer range), `scamConfidence` is an upper bound of the fraud-flagged
confidences and is attained by one of them — i.e. it equals their maximum —
and it is `0` when no call was fraud-flagged; moreover it is monotonically
non-decreasing across calls (every prefix yields a value no larger). -/
theorem scamConfidence_eq_max_fraud_confidence (sid : String)
    (start now : ℚ) (ts : List TurnRec)
    (h : ∀ t ∈ ts, 0 ≤ t.confidence ∧ t.confidence ≤ 1) :
    (∀ t ∈ ts, t.fraudDetected = true →
        t.confidence ≤ (recordTurns now (newSession sid start) ts).scamConfidence)
      ∧ ((∃ t ∈ ts, t.fraudDetected = true) →
          ∃ t ∈ ts, t.fraudDetected = true
            ∧ (recordTurns now (newSession sid start) ts).scamConfidence = t.confidence)
      ∧ ((∀ t ∈ ts, t.fraudDetected = false) →
          (recordTurns now (newSession sid start) ts).scamConfidence = 0)
      ∧ (∀ pre suf, ts = pre ++ suf →
          (recordTurns now (newSession sid start) pre).scamConfidence
            ≤ (recordTurns now (newSession sid start) ts).scamConfidence) := by
  have hzero : (newSession sid start).scamConfidence = 0 := rfl
  refine ⟨?_, ?_, ?_, ?_⟩
  · intro t ht htf
    rw [recordTurns_scamConfidence]
    exact confFold_ge_mem ts htf _ ht
  · intro ⟨t0, ht0, ht0f⟩
    rw [recordTurns_scamConfidence, hzero]
    rcases confFold_attained ts 0 with hid | hat
    · refine ⟨t0, ht0, ht0f, ?_⟩
      have hub := confFold_ge_mem ts ht0f (0 : ℚ) ht0
      rw [hid] at hub ⊢
      exact le_antisymm (h t0 ht0).1 hub
    · exact hat
  · intro hall
    rw [recordTurns_scamConfidence, hzero]
    exact confFold_id ts 0 hall
  · intro pre suf hsplit
    subst hsplit
    rw [recordTurns_scamConfidence, recordTurns_scamConfidence, hzero,
      List.foldl_append]
    exact confFold_le_self suf _

/-- A concrete fraud-flagged turn with confidence `0.9`. -/
def turnHigh : TurnRec := ⟨⟨"scammer", "a", 0⟩, true, 0.9⟩

/-- A concrete fraud-flagged turn with confidence `0.5`. -/
def turnMid : TurnRec := ⟨⟨"scammer", "b", 0⟩, true, 0.5⟩

/-- Witness for C4 at a concrete run: two fraud-flagged calls with
confidences `0.9` then `0.5`. -/
theorem scamConfidence_eq_max_fraud_confidence_witness :
    (∀ t ∈ [turnHigh, turnMid], 0 ≤ t.confidence ∧ t.confidence ≤ 1)
      ∧ ((∀ t ∈ [turnHigh, turnMid],
            t.fraudDetected = true →
              t.confidence
                ≤ (recordTurns 0 (newSession "s" 0) [turnHigh, turnMid]).scamConfidence)
          ∧ ((∃ t ∈ [turnHigh, turnMid], t.fraudDetected = true) →
              ∃ t ∈ [turnHigh, turnMid],
                t.fraudDetected = true
                  ∧ (recordTurns 0 (newSession "s" 0)
                      [turnHigh, turnMid]).scamConfidence = t.confidence)
          ∧ ((∀ t ∈ [turnHigh, turnMid], t.fraudDetected = false) →
              (recordTurns 0 (newSession "s" 0) [turnHigh, turnMid]).scamConfidence = 0)
          ∧ (∀ pre suf, [turnHigh, turnMid] = pre ++ suf →
              (recordTurns 0 (newSession "s" 0) pre).scamConfidence
                ≤ (recordTurns 0 (newSession "s" 0)
                    [turnHigh, turnMid]).scamConfidence)) := by
  have h : ∀ t ∈ [turnHigh, turnMid], 0 ≤ t.confidence ∧ t.confidence ≤ 1 := by
    intro t ht
    rcases List.mem_cons.mp ht with h1 | h1
    · subst h1; constructor <;> norm_num [turnHigh]
    · rcases List.mem_cons.mp h1 with h2 | h2
      · subst h2; constructor <;> norm_num [turnMid]
      · cases h2
  exact ⟨h, scamConfidence_eq_max_fraud_confidence "s" 0 0 _ h⟩

/-- C8 counterexample.  Two fraud-flagged `update_session` calls with
confidences `0.9` then `0.5`: `scamConfidence` is the maximum `0.9`, whose
fixed-threshold bucket is `"high"`, but the stored `riskLevel` is `"low"` —
the bucket of the *last* confidence, not of the maximum. -/
theorem riskLevel_not_bucket_of_max_counterexample :
    (recordTurns 0 (newSession "s" 0) [turnHigh, turnMid]).scamConfidence = 0.9
      ∧ (recordTurns 0 (newSession "s" 0) [turnHigh, turnMid]).riskLevel = "low"
      ∧ calculate_risk_level
          (recordTurns 0 (newSession "s" 0) [turnHigh, turnMid]).scamConfidence = "high"
      ∧ (recordTurns 0 (newSession "s" 0) [turnHigh, turnMid]).riskLevel
          ≠ calculate_risk_level
              (recordTurns 0 (newSession "s" 0) [turnHigh, turnMid]).scamConfidence := by
  have hsc : (recordTurns 0 (newSession "s" 0) [turnHigh, turnMid]).scamConfidence
      = 0.9 := by
    rw [recordTurns_scamConfidence]
    simp only [List.foldl_cons, List.foldl_nil, turnHigh, turnMid, if_true]
    show max (max (newSession "s" 0).scamConfidence 0.9) 0.5 = 0.9
    have : (newSession "s" 0).scamConfidence = 0 := rfl
    rw [this]
    norm_num [max_eq_left, max_eq_right]
  have hrl : (recordTurns 0 (newSession "s" 0) [turnHigh, turnMid]).riskLevel
      = "low" := by
    simp only [recordTurns, update_session_riskLevel, turnMid, if_true]
    unfold calculate_risk_level
    norm_num
  have hbucket : calculate_risk_level (0.9 : ℚ) = "high" := by
    unfold calculate_risk_level
    norm_num
  refine ⟨hsc, hrl, ?_, ?_⟩
  · rw [hsc]; exact hbucket
  · rw [hsc, hrl, hbucket]
    decide

/-- C8 amended.  After every `update_session` call with
`fraudDetected=true`, `riskLevel` equals the fixed-threshold bucket
(`≥0.8` high, `≥0.6` medium, `≥0.4` low, else very_low) of the confidence
passed to *that* call — the most recent fraud-flagged confidence — which
can differ from the bucket of the running maximum `scamConfidence`. -/
theorem riskLevel_bucket_of_last_fraud_confidence (now : ℚ) (message : Message)
    (confidence : ℚ) (s : Session) :
    (update_session now message true confidence s).riskLevel
      = calculate_risk_level confidence := by
  rw [update_session_riskLevel]
  rfl

/-- C10.  A freshly created session has `riskLevel` `"low"` even though its
`scamConfidence` is `0`, whose fixed-threshold bucket is `"very_low"`. -/
theorem new_session_riskLevel_low_not_very_low (sid : String) (now : ℚ) :
    (newSession sid now).riskLevel = "low"
      ∧ (newSession sid now).scamConfidence = 0
      ∧ calculate_risk_level (newSession sid now).scamConfidence = "very_low"
      ∧ (newSession sid now).riskLevel
          ≠ calculate_risk_level (newSession sid now).scamConfidence := by
  have hb : calculate_risk_level (newSession sid now).scamConfidence = "very_low" := by
    show calculate_risk_level 0 = "very_low"
    unfold calculate_risk_level
    norm_num
  refine ⟨rfl, rfl, hb, ?_⟩
  rw [hb]
  show "low" ≠ "very_low"
  decide

/-! ## Response Selector (`agent.py`) -/

/-- The context flags `_analyze_context` derives from the last three
messages (`agent.py` lines 31-47). -/
structure Context where
  mentions_bank : Bool
  mentions_upi : Bool
  mentions_kyc : Bool
  mentions_urgent : Bool
  mentions_link : Bool
  mentions_money : Bool
  conversation_stage : Nat
deriving DecidableEq

/-- Source `_analyze_context` (`agent.py` lines 31-47). -/
def analyze_context (history : List Message) : Context :=
  let recent := (history.drop (history.length - 3)).map (fun m => lowerStr m.text)
  { mentions_bank := recent.any (fun m => strContains m "bank")
    mentions_upi := recent.any (fun m => strContains m "upi")
    mentions_kyc := recent.any (fun m => strContains m "kyc")
    mentions_urgent := recent.any (fun m =>
      strContains m "urgent" || strContains m "immediate" || strContains m "now")
    mentions_link := recent.any (fun m =>
      strContains m "link" || strContains m "click")
    mentions_money := recent.any (fun m =>
      strContains m "money" || strContains m "payment"
        || strContains m "deposit" || strContains m "transfer")
    conversation_stage := min (history.length / 2) 4 }

/-- Source `_get_initial_stage_response` (`agent.py` lines 64-80). -/
def get_initial_stage_response (choice : List String → String) (c : Context) : String :=
  let responses :=
    ["Oh no, what happened? Why is there an issue with my account?",
     "I\x27m confused, which account are you talking about?",
     "Is this serious? Should I be worried?",
     "Can you tell me more about what\x27s going on?",
     "I don\x27t understand, what seems to be the problem?"]
  let responses :=
    if c.mentions_bank then
      responses ++
        ["Which bank is this regarding? I have accounts in multiple banks.",
         "Is this about my SBI account or HDFC account?"]
    else responses
  choice responses

/-- Source `_get_engagement_response` (`agent.py` lines 82-97). -/
def get_engagement_response (choice : List String → String) (c : Context) : String :=
  let responses :=
    ["That sounds concerning. What do I need to do exactly?",
     "I see. Can you walk me through the process step by step?",
     "Okay, I understand. What\x27s the first thing I should do?",
     "Thank you for letting me know. How can I resolve this quickly?"]
  let responses :=
    if c.mentions_urgent then
      responses ++
        ["This seems urgent. What happens if I don\x27t act immediately?",
         "I\x27m a bit scared now. Please help me understand this better."]
    else responses
  choice responses

/-- Source `_get_information_seeking_response` (`agent.py` lines 99-120). -/
def get_information_seeking_response (choice : List String → String)
    (c : Context) : String :=
  let responses :=
    ["Can you provide more details about the verification process?",
     "What information do you need from me exactly?",
     "Is there a website or official portal I should visit?",
     "How can I confirm this is legitimate?"]
  let responses :=
    if c.mentions_upi then
      responses ++
        ["Which UPI ID should I use? I have multiple payment apps.",
         "Should I use my Google Pay UPI or PhonePe UPI?"]
    else responses
  let responses :=
    if c.mentions_link then
      responses ++
        ["Can you send me the official link? I want to make sure it\x27s authentic.",
         "Is there a government website I should check?"]
    else responses
  choice responses

/-- Source `_get_verification_response` (`agent.py` lines 122-137). -/
def get_verification_response (choice : List String → String) (c : Context) : String :=
  let responses :=
    ["I want to make sure this is legitimate. Can you verify your identity?",
     "How can I confirm you\x27re actually from the bank/organization?",
     "Is there a customer service number I can call to verify this?",
     "Can you provide any reference number or case ID for this issue?"]
  let responses :=
    if c.mentions_money then
      responses ++
        ["Why do I need to make a payment to resolve this?",
         "Is there any fee involved? How much exactly?"]
    else responses
  choice responses

/-- Source `_get_advanced_response` (`agent.py` lines 139-154). -/
def get_advanced_response (choice : List String → String) (c : Context) : String :=
  let responses :=
    ["I\x27ve been getting similar messages lately. How do I know this isn\x27t a scam?",
     "My friend warned me about fraud attempts. Can you prove this is genuine?",
     "I think I should contact my bank directly to confirm this.",
     "Can you share your employee ID or official identification?"]
  let responses :=
    if c.mentions_kyc then
      responses ++
        ["But I already completed my KYC last year. Why do I need to do it again?",
         "Should I visit my bank branch for KYC verification instead?"]
    else responses
  choice responses

/-- Source `_craft_response` (`agent.py` lines 49-62). -/
def craft_response (choice : List String → String) (c : Context) : String :=
  if c.conversation_stage = 0 then get_initial_stage_response choice c
  else if c.conversation_stage = 1 then get_engagement_response choice c
  else if c.conversation_stage = 2 then get_information_seeking_response choice c
  else if c.conversation_stage = 3 then get_verification_response choice c
  else get_advanced_response choice c

/-- Source `_get_initial_response` (`agent.py` lines 156-164). -/
def get_initial_response (choice : List String → String) : String :=
  choice
    ["Hello? Who is this?",
     "I\x27m not sure I understand. What is this about?",
     "Can you tell me who you are and why you\x27re contacting me?",
     "Sorry, I think you might have the wrong person."]

/-- Source `agent_reply` / `generate_contextual_response` (`agent.py` lines
13-29, 169-174), with `random.choice` passed in as `choice`.  (The persona
field is drawn at start-up and never read when crafting a response.) -/
def agent_reply (choice : List String → String) (history : List Message) : String :=
  if history.isEmpty then get_initial_response choice
  else craft_response choice (analyze_context history)

/-! ## Orchestrator (`main.py`) -/

/-- What the network call inside `send_final_callback` can come back with:
a transport failure (`requests.exceptions.RequestException`), any other
exception, or an HTTP status code. -/
inductive DeliveryOutcome where
  | networkError : DeliveryOutcome
  | unexpectedError : DeliveryOutcome
  | status : Nat → DeliveryOutcome
deriving DecidableEq

/-- Source `send_final_callback` of `main.py` (lines 175-207): builds the summary
(whose inner `get_session` refreshes `lastActivity`), posts it, and catches
every failure mode — `requests.exceptions.RequestException` and any other
exception are logged and suppressed, and a non-200 status is only logged —
so every outcome falls through to the same normal return with no further
session effect. -/
def send_final_callback (outcome : DeliveryOutcome) (now : ℚ) (s : Session) : Session :=
  match outcome with
  | .networkError => { s with lastActivity := now }
  | .unexpectedError => { s with lastActivity := now }
  | .status _ => { s with lastActivity := now }

/-- The body of the `HoneypotResponse` returned to the caller. -/
structure TurnResponse where
  status : String
  reply : String
  scamDetected : Bool
  confidence : ℚ
deriving DecidableEq

/-- The observable outcome of one orchestrated turn: the session state it
leaves behind, the response returned to the caller, and whether the
completion report was sent this turn. -/
structure TurnOutcome where
  session : Session
  response : TurnResponse
  callbackSent : Bool
deriving DecidableEq

/-- Source `honeypot_message` of `main.py` (lines 103-169) on one live session,
after authentication and request parsing.  `conversation_history` is the
client-supplied `conversationHistory`, `message` the current inbound
message, `now` the wall clock of this turn, `outcome` what the delivery
attempt would come back with.

Lines 110-111 of the source assign the *same* Python list object
(`complete_history`) to both `session["conversationHistory"]` and
`session["messages"]`; from then on every append through either key lands
in that one shared list.  So the two appends of `update_session` (the message,
then its normalized copy — equal field for field) leave both keys at
`complete_history ++ [message, message]`, and the two appends the fraud path makes
of the agent reply extend that same shared list again.  The model threads
that shared list through both fields. -/
def honeypot_message (research : String → String → Bool) (refindall : Findall)
    (choice : List String → String) (outcome : DeliveryOutcome) (now : ℚ)
    (sess : Session) (conversation_history : List Message) (message : Message) :
    TurnOutcome :=
  let session := { sess with lastActivity := now }
  let complete_history := conversation_history ++ [message]
  let session := { session with
    conversationHistory := complete_history
    messages := complete_history }
  let scored := calculate_scam_score research message.text
  let is_scam := scored.1
  let keywords := scored.2.1
  let confidence := scored.2.2
  let shared := complete_history ++ [message, message]
  let session := { session with
    messages := shared
    conversationHistory := shared
    totalMessagesExchanged := shared.length }
  let session :=
    if message.sender = "scammer" then
      { session with scammerMessagesCount := session.scammerMessagesCount + 1 }
    else if message.sender = "user" then
      { session with agentMessagesCount := session.agentMessagesCount + 1 }
    else session
  let session :=
    if is_scam then
      { session with
        scamDetected := true
        scamConfidence := max session.scamConfidence confidence
        riskLevel := calculate_risk_level confidence }
    else session
  let session := { session with
    conversationStage := min (session.totalMessagesExchanged / 2) 5 }
  let session := { session with engagementScore := calculate_engagement_score session }
  if is_scam then
    let session := { session with
      intelligence := extract_intelligence refindall message.text session.intelligence }
    let session := { session with
      intelligence := { session.intelligence with
        suspiciousKeywords :=
          extendUnique session.intelligence.suspiciousKeywords keywords } }
    let reply := agent_reply choice shared
    let agent_message : Message :=
      { sender := "user", text := reply, timestamp := now * 1000 }
    let shared2 := shared ++ [agent_message, agent_message]
    let session := { session with
      messages := shared2
      conversationHistory := shared2 }
    let should_callback :=
      (decide (shared2.length ≥ 8)
          || (decide (confidence ≥ 0.8) && decide (shared2.length ≥ 4)))
        && !session.completed
    let session :=
      if should_callback then mark_completed (send_final_callback outcome now session)
      else session
    { session := session
      response :=
        { status := "success", reply := reply, scamDetected := true,
          confidence := confidence }
      callbackSent := should_callback }
  else
    { session := session
      response :=
        { status := "success", reply := "Okay.", scamDetected := false,
          confidence := confidence }
      callbackSent := false }

/-- The inputs of one inbound turn (the oracles are fixed across turns). -/
structure TurnInput where
  history : List Message
  message : Message
  outcome : DeliveryOutcome
  now : ℚ

/-- A sequence of orchestrated turns on one session, collecting for each
turn whether the completion report was sent. -/
def runTurns (research : String → String → Bool) (refindall : Findall)
    (choice : List String → String) :
    List TurnInput → Session → Session × List Bool
  | [], s => (s, [])
  | i :: rest, s =>
      let o := honeypot_message research refindall choice i.outcome i.now s
        i.history i.message
      let r := runTurns research refindall choice rest o.session
      (r.1, o.callbackSent :: r.2)

/-- Every branch of the delivery attempt leaves the same session behind. -/
theorem send_final_callback_eq (outcome : DeliveryOutcome) (now : ℚ) (s : Session) :
    send_final_callback outcome now s = { s with lastActivity := now } := by
  cases outcome <;> rfl

/-- How one turn moves `completed` and when it sends the report: a sent
report marks the session completed; a turn that sends nothing leaves
`completed` as it was; an already-completed session never sends. -/
theorem honeypot_message_completed_spec (research : String → String → Bool)
    (refindall : Findall) (choice : List String → String)
    (outcome : DeliveryOutcome) (now : ℚ) (sess : Session)
    (hist : List Message) (msg : Message) :
    ((honeypot_message research refindall choice outcome now sess hist
          msg).callbackSent = true →
        (honeypot_message research refindall choice outcome now sess hist
          msg).session.completed = true)
      ∧ ((honeypot_message research refindall choice outcome now sess hist
            msg).callbackSent = false →
          (honeypot_message research refindall choice outcome now sess hist
            msg).session.completed = sess.completed)
      ∧ (sess.completed = true →
          (honeypot_message research refindall choice outcome now sess hist
            msg).callbackSent = false) := by
  cases hscam : (calculate_scam_score research msg.text).1
  · simp only [honeypot_message, hscam, mark_completed, send_final_callback_eq,
      apply_ite Session.completed, apply_ite TurnOutcome.callbackSent,
      apply_ite TurnOutcome.session, ite_self, Bool.false_eq_true, if_false, if_true]
    simp
  · simp only [honeypot_message, hscam, mark_completed, send_final_callback_eq,
      apply_ite Session.completed, apply_ite TurnOutcome.callbackSent,
      apply_ite TurnOutcome.session, ite_self, Bool.false_eq_true, if_false, if_true]
    refine ⟨?_, ?_, ?_⟩
    · intro h
      rw [if_pos h]
    · intro h
      rw [if_neg (by rw [h]; exact Bool.false_ne_true)]
    · intro h
      simp [h]

/-- How one turn moves `scamConfidence`: raised to the max of the old value
and the scored confidence on a fraud turn, untouched otherwise. -/
theorem honeypot_message_scamConfidence (research : String → String → Bool)
    (refindall : Findall) (choice : List String → String)
    (outcome : DeliveryOutcome) (now : ℚ) (sess : Session)
    (hist : List Message) (msg : Message) :
    (honeypot_message research refindall choice outcome now sess hist
        msg).session.scamConfidence
      = if (calculate_scam_score research msg.text).1 then
          max sess.scamConfidence (calculate_scam_score research msg.text).2.2
        else sess.scamConfidence := by
  cases hscam : (calculate_scam_score research msg.text).1 <;>
    simp only [honeypot_message, hscam, mark_completed, send_final_callback_eq,
      apply_ite Session.scamConfidence, apply_ite TurnOutcome.session, ite_self,
      Bool.false_eq_true, if_false, if_true]

/-- C6.  The outcome of one orchestrated turn — session state, response to
the caller, and whether the report went out — is identical for every
delivery outcome (network error, timeout/unexpected error, any status
code), the response status is the normal `"success"` for every outcome,
a turn that sends the report leaves the session marked completed, and the
monotonic fields stay as set (`scamDetected`, `scamConfidence`,
`completed` are never undone). -/
theorem callback_failure_never_propagates (research : String → String → Bool)
    (refindall : Findall) (choice : List String → String) (now : ℚ)
    (sess : Session) (hist : List Message) (msg : Message)
    (o1 o2 : DeliveryOutcome) :
    honeypot_message research refindall choice o1 now sess hist msg
        = honeypot_message research refindall choice o2 now sess hist msg
      ∧ (honeypot_message research refindall choice o1 now sess hist
          msg).response.status = "success"
      ∧ ((honeypot_message research refindall choice o1 now sess hist
            msg).callbackSent = true →
          (honeypot_message research refindall choice o1 now sess hist
            msg).session.completed = true)
      ∧ (sess.scamDetected = true →
          (honeypot_message research refindall choice o1 now sess hist
            msg).session.scamDetected = true)
      ∧ sess.scamConfidence
          ≤ (honeypot_message research refindall choice o1 now sess hist
              msg).session.scamConfidence
      ∧ (sess.completed = true →
          (honeypot_message research refindall choice o1 now sess hist
            msg).session.completed = true) := by
  refine ⟨?_, ?_, ?_, ?_, ?_, ?_⟩
  · simp only [honeypot_message, send_final_callback_eq]
  · cases hscam : (calculate_scam_score research msg.text).1 <;>
      simp only [honeypot_message, hscam, apply_ite TurnOutcome.response,
        ite_self, Bool.false_eq_true, if_false, if_true]
  · exact (honeypot_message_completed_spec research refindall choice o1 now
      sess hist msg).1
  · intro h
    cases hscam : (calculate_scam_score research msg.text).1 <;>
      simp only [honeypot_message, hscam, mark_completed, send_final_callback_eq,
        apply_ite Session.scamDetected, apply_ite TurnOutcome.session, ite_self,
        Bool.false_eq_true, if_false, if_true]
    all_goals simp [h]
  · rw [honeypot_message_scamConfidence]
    split
    · exact le_max_left _ _
    · exact le_rfl
  · intro h
    rcases honeypot_message_completed_spec research refindall choice o1 now
      sess hist msg with ⟨h1, h2, h3⟩
    cases hcb : (honeypot_message research refindall choice o1 now sess hist
        msg).callbackSent
    · rw [h2 hcb, h]
    · exact h1 hcb

/-- C7.  A turn whose inbound message is classified as not fraud returns
the fixed reply `"Okay."` with `scamDetected=false`, sends no report, and
leaves the artifact set of the session, `scamDetected`, `scamConfidence`,
`riskLevel` (and `completed`) exactly as they were before the turn. -/
theorem non_fraud_turn_frame (research : String → String → Bool)
    (refindall : Findall) (choice : List String → String)
    (outcome : DeliveryOutcome) (now : ℚ) (sess : Session)
    (hist : List Message) (msg : Message)
    (h : (calculate_scam_score research msg.text).1 = false) :
    (honeypot_message research refindall choice outcome now sess hist
        msg).response.reply = "Okay."
      ∧ (honeypot_message research refindall choice outcome now sess hist
          msg).response.scamDetected = false
      ∧ (honeypot_message research refindall choice outcome now sess hist
          msg).callbackSent = false
      ∧ (honeypot_message research refindall choice outcome now sess hist
          msg).session.intelligence = sess.intelligence
      ∧ (honeypot_message research refindall choice outcome now sess hist
          msg).session.scamDetected = sess.scamDetected
      ∧ (honeypot_message research refindall choice outcome now sess hist
          msg).session.scamConfidence = sess.scamConfidence
      ∧ (honeypot_message research refindall choice outcome now sess hist
          msg).session.riskLevel = sess.riskLevel
      ∧ (honeypot_message research refindall choice outcome now sess hist
          msg).session.completed = sess.completed := by
  simp only [honeypot_message, h, Bool.false_eq_true, if_false]
  simp [apply_ite Session.intelligence, apply_ite Session.scamDetected,
    apply_ite Session.scamConfidence, apply_ite Session.riskLevel,
    apply_ite Session.completed, ite_self]

/-- C5 amended.  At the end of every orchestrated turn the counter
`totalMessagesExchanged` equals (client history length) + 3 — the length of
the shared recorded list when `update_session` recomputed it — but the
recorded message sequence itself is 2 entries *longer* than the counter
after a fraud turn, because the fraud path appends the agent reply to both
aliased list keys without recounting; only after a non-fraud turn are the
two equal.  The two aliased keys always hold the same sequence. -/
theorem total_count_vs_recorded_messages (research : String → String → Bool)
    (refindall : Findall) (choice : List String → String)
    (outcome : DeliveryOutcome) (now : ℚ) (sess : Session)
    (hist : List Message) (msg : Message) :
    (honeypot_message research refindall choice outcome now sess hist
        msg).session.totalMessagesExchanged = hist.length + 3
      ∧ (honeypot_message research refindall choice outcome now sess hist
            msg).session.messages.length
          = (honeypot_message research refindall choice outcome now sess hist
              msg).session.totalMessagesExchanged
            + (if (calculate_scam_score research msg.text).1 then 2 else 0)
      ∧ (honeypot_message research refindall choice outcome now sess hist
            msg).session.conversationHistory
          = (honeypot_message research refindall choice outcome now sess hist
              msg).session.messages := by
  cases hscam : (calculate_scam_score research msg.text).1 <;>
    simp [honeypot_message, hscam, mark_completed, send_final_callback_eq,
      apply_ite Session.totalMessagesExchanged, apply_ite Session.messages,
      apply_ite Session.conversationHistory, apply_ite TurnOutcome.session,
      ite_self, List.length_append]

/-- Source `re.search`, recorded by hand for every pattern of `detector.py`
against the (already lower-case) subject `"urgent verify account blocked"`:
`\burgent\b` matches the first word and `\bverify.*account\b` matches
`"verify account"`; no other urgency/financial/phishing pattern matches
(`\baccount.*block\b` fails because `block` inside `blocked` is followed by
a word character, so `\b` cannot hold), and the URL and phone searches find
no scheme and no digits. -/
def reSearchEx (p s : String) : Bool :=
  (s == "urgent verify account blocked")
    && (p == "\\burgent\\b" || p == "\\bverify.*account\\b")

/-- Source `re.findall` for any of the extractor patterns against subjects with
no digits, no `@`, no dot and no `account`/`a/c`/`card`/keyword tokens —
such as `"4111"`-free prose like the benign greeting — finds nothing.
Recorded by hand for the two subjects this development evaluates:
`"urgent verify account blocked"` (the worded `account\s*#?\s*[:\-]?\s*\d+`
pattern fails for lack of any digit) and `"Hi, how are you doing today?"`. -/
def refindallNone : Findall := fun _ _ _ => []

/-- A concrete `random.choice` draw: always the first candidate. -/
def headChoice : List String → String := fun candidates => candidates.headD ""

/-- The fraud-classified message of the concrete fraud turn. -/
def exMsg : Message := ⟨"scammer", "urgent verify account blocked", 0⟩

/-- The concrete fraud turn scores `min(4·0.15 + 0.25 + 0.30, 1) = 1`:
four keyword hits (`blocked`, `verify`, `urgent`, `account`), one urgency
pattern and one financial pattern. -/
theorem exMsg_is_fraud : (calculate_scam_score reSearchEx exMsg.text).1 = true := by
  have hk : SCAM_KEYWORDS.filter
      (fun k => strContains (lowerStr exMsg.text) k)
      = ["blocked", "verify", "urgent", "account"] := rfl
  have hu : URGENCY_PATTERNS.filter (fun p => reSearchEx p (lowerStr exMsg.text))
      = ["\\burgent\\b"] := rfl
  have hf : FINANCIAL_PATTERNS.filter (fun p => reSearchEx p (lowerStr exMsg.text))
      = ["\\bverify.*account\\b"] := rfl
  have hp : PHISHING_PATTERNS.filter (fun p => reSearchEx p (lowerStr exMsg.text))
      = [] := rfl
  have hurl : reSearchEx urlSearchPattern exMsg.text = false := rfl
  have hph : reSearchEx phoneSearchPattern exMsg.text = false := rfl
  simp only [calculate_scam_score, hk, hu, hf, hp, hurl, hph]
  norm_num

/-- C5 counterexample.  One fraud-classified turn on a fresh session with
empty client history: at the end of the turn `totalMessagesExchanged` is
`3` while the recorded message sequence has length `5` — the invariant
"total message count always equals the length of the recorded message
sequence" fails on the fraud path. -/
theorem total_count_vs_recorded_messages_counterexample :
    (honeypot_message reSearchEx refindallNone headChoice
        (DeliveryOutcome.status 200) 0 (newSession "s5" 0) []
        exMsg).session.totalMessagesExchanged = 3
      ∧ (honeypot_message reSearchEx refindallNone headChoice
          (DeliveryOutcome.status 200) 0 (newSession "s5" 0) []
          exMsg).session.messages.length = 5
      ∧ (honeypot_message reSearchEx refindallNone headChoice
            (DeliveryOutcome.status 200) 0 (newSession "s5" 0) []
            exMsg).session.totalMessagesExchanged
          ≠ (honeypot_message reSearchEx refindallNone headChoice
              (DeliveryOutcome.status 200) 0 (newSession "s5" 0) []
              exMsg).session.messages.length := by
  have hscam := exMsg_is_fraud
  refine ⟨?_, ?_, ?_⟩ <;>
    simp [honeypot_message, hscam, mark_completed, send_final_callback_eq,
      apply_ite Session.totalMessagesExchanged, apply_ite Session.messages,
      apply_ite TurnOutcome.session, ite_self]

/-- The benign message of the concrete non-fraud turn. -/
def benignMsg : Message := ⟨"scammer", "Hi, how are you doing today?", 0⟩

/-- Source `re.search`, recorded by hand for every pattern of `detector.py`
against `"hi, how are you doing today?"`: no urgency, financial, phishing,
URL or phone pattern matches (no such word, no scheme, no digits). -/
def reSearchNone : String → String → Bool := fun _ _ => false

/-- The benign greeting hits no keyword and no pattern: confidence `0`. -/
theorem benignMsg_not_fraud :
    (calculate_scam_score reSearchNone benignMsg.text).1 = false := by
  have hk : SCAM_KEYWORDS.filter
      (fun k => strContains (lowerStr benignMsg.text) k) = [] := rfl
  simp only [calculate_scam_score, hk, reSearchNone, List.filter_false]
  norm_num

/-- Witness for C7 at the concrete benign turn
`"Hi, how are you doing today?"`. -/
theorem non_fraud_turn_frame_witness :
    (calculate_scam_score reSearchNone benignMsg.text).1 = false
      ∧ ((honeypot_message reSearchNone refindallNone headChoice
            (DeliveryOutcome.status 200) 0 (newSession "w7" 0) []
            benignMsg).response.reply = "Okay."
          ∧ (honeypot_message reSearchNone refindallNone headChoice
              (DeliveryOutcome.status 200) 0 (newSession "w7" 0) []
              benignMsg).response.scamDetected = false
          ∧ (honeypot_message reSearchNone refindallNone headChoice
              (DeliveryOutcome.status 200) 0 (newSession "w7" 0) []
              benignMsg).callbackSent = false
          ∧ (honeypot_message reSearchNone refindallNone headChoice
                (DeliveryOutcome.status 200) 0 (newSession "w7" 0) []
                benignMsg).session.intelligence
              = (newSession "w7" 0).intelligence
          ∧ (honeypot_message reSearchNone refindallNone headChoice
                (DeliveryOutcome.status 200) 0 (newSession "w7" 0) []
                benignMsg).session.scamDetected = (newSession "w7" 0).scamDetected
          ∧ (honeypot_message reSearchNone refindallNone headChoice
                (DeliveryOutcome.status 200) 0 (newSession "w7" 0) []
                benignMsg).session.scamConfidence
              = (newSession "w7" 0).scamConfidence
          ∧ (honeypot_message reSearchNone refindallNone headChoice
                (DeliveryOutcome.status 200) 0 (newSession "w7" 0) []
                benignMsg).session.riskLevel = (newSession "w7" 0).riskLevel
          ∧ (honeypot_message reSearchNone refindallNone headChoice
                (DeliveryOutcome.status 200) 0 (newSession "w7" 0) []
                benignMsg).session.completed = (newSession "w7" 0).completed) :=
  ⟨benignMsg_not_fraud,
    non_fraud_turn_frame reSearchNone refindallNone headChoice
      (DeliveryOutcome.status 200) 0 (newSession "w7" 0) [] benignMsg
      benignMsg_not_fraud⟩

/-- Once a session is completed, any further run of turns keeps it
completed and sends no report at all. -/
theorem runTurns_completed_mono (research : String → String → Bool)
    (refindall : Findall) (choice : List String → String)
    (inputs : List TurnInput) :
    ∀ s : Session, s.completed = true →
      (runTurns research refindall choice inputs s).1.completed = true
        ∧ (runTurns research refindall choice inputs s).2.count true = 0 := by
  induction inputs with
  | nil => exact fun s h => ⟨h, rfl⟩
  | cons i rest ih =>
      intro s h
      rcases honeypot_message_completed_spec research refindall choice i.outcome
        i.now s i.history i.message with ⟨_, hstay, hquiet⟩
      have hcb := hquiet h
      have hcompleted : (honeypot_message research refindall choice i.outcome
          i.now s i.history i.message).session.completed = true := by
        rw [hstay hcb]; exact h
      rcases ih _ hcompleted with ⟨ih1, ih2⟩
      refine ⟨ih1, ?_⟩
      simp [runTurns, List.count_cons, hcb, ih2]

/-- Over any run of turns the report is sent at most once. -/
theorem runTurns_count_le_one (research : String → String → Bool)
    (refindall : Findall) (choice : List String → String)
    (inputs : List TurnInput) :
    ∀ s : Session, (runTurns research refindall choice inputs s).2.count true ≤ 1 := by
  induction inputs with
  | nil => intro s; simp [runTurns]
  | cons i rest ih =>
      intro s
      rcases honeypot_message_completed_spec research refindall choice i.outcome
        i.now s i.history i.message with ⟨hsent, _, _⟩
      cases hcb : (honeypot_message research refindall choice i.outcome i.now s
          i.history i.message).callbackSent
      · simpa [runTurns, List.count_cons, hcb] using ih _
      · have hrest := (runTurns_completed_mono research refindall choice rest _
          (hsent hcb)).2
        simp [runTurns, List.count_cons, hcb, hrest]

/-- Running a concatenation of turn lists is running them in sequence. -/
theorem runTurns_append (research : String → String → Bool)
    (refindall : Findall) (choice : List String → String)
    (pre suf : List TurnInput) :
    ∀ s : Session,
      runTurns research refindall choice (pre ++ suf) s
        = ((runTurns research refindall choice suf
              (runTurns research refindall choice pre s).1).1,
           (runTurns research refindall choice pre s).2
             ++ (runTurns research refindall choice suf
                  (runTurns research refindall choice pre s).1).2) := by
  induction pre with
  | nil => intro s; simp [runTurns]
  | cons i rest ih =>
      intro s
      simp [runTurns, ih]

/-- C2.  Over every sequence of inbound turns on a session, the completion
report is sent at most once; and once a prefix of the run has left the
session completed, the whole run leaves it completed (the flag never
reverts) and no turn of the remaining suffix sends another report, however
long the suffix — and hence the message count — grows. -/
theorem completion_report_at_most_once (research : String → String → Bool)
    (refindall : Findall) (choice : List String → String)
    (inputs : List TurnInput) (s0 : Session) :
    (runTurns research refindall choice inputs s0).2.count true ≤ 1
      ∧ (∀ pre suf, inputs = pre ++ suf →
          (runTurns research refindall choice pre s0).1.completed = true →
            ((runTurns research refindall choice inputs s0).1.completed = true
              ∧ (runTurns research refindall choice suf
                  (runTurns research refindall choice pre s0).1).2.count true = 0)) := by
  refine ⟨runTurns_count_le_one research refindall choice inputs s0, ?_⟩
  intro pre suf hsplit hpre
  subst hsplit
  rw [runTurns_append research refindall choice pre suf s0]
  rcases runTurns_completed_mono research refindall choice suf _ hpre with ⟨h1, h2⟩
  exact ⟨h1, h2⟩

end Honeypot
